import Mathlib

/-!
BlockBin: the `App` component of `src/src/App.jsx`.

A shallow embedding of the three asynchronous routines of the component
(`setup`, `getFilesUploaded`, and the `onchange` handler installed by
`handleFileUpload`) as pure functions over an explicit component state.

Conventions of the embedding.

* A React state variable is a field of `AppState`; `setX(v)` is a record
  update.  Every setter call made by the three routines passes a value (not
  an updater), so the state after the routine is the sequential composition
  of its setter calls.
* An `await`ed call into a library (the storage client, the contract
  binding) is a field of `Env`/`Contract` returning `Except Thrown _`:
  `.ok v` for a fulfilled promise, `.error e` for a rejected one.
* Everything a routine does to the outside is recorded in its `Outcome`:
  the `alert` texts in order, the external calls in order, and whether the
  routine's own promise rejects because a `catch` block itself threw.
* `console.log`/`console.error` are not recorded.  The interval and
  timeout callbacks that animate `uploadProgress` run on the timer queue,
  not inside the handler, and are outside the embedding.
* The loop index `userFileIndex` and the length of `files` are unbounded
  naturals.
-/

namespace BlockBin

/-! ## JavaScript values that the routines inspect -/

/-- A value caught by a `catch` clause, classified by what `err.message`
does: on `null`/`undefined` the property access itself throws a
`TypeError`; on anything else it yields the `message` property, which is
a string or absent (`undefined`). -/
inductive Thrown where
  | nullish
  | value (message : Option String)
  deriving DecidableEq, Repr

/-- Does `pat` occur at the front of `s`. -/
def startsWithChars : List Char → List Char → Bool
  | _, [] => true
  | [], _ :: _ => false
  | c :: cs, p :: ps => c == p && startsWithChars cs ps

/-- Does `pat` occur somewhere in `s`. -/
def includesChars : List Char → List Char → Bool
  | [], pat => pat.isEmpty
  | c :: cs, pat => startsWithChars (c :: cs) pat || includesChars cs pat

/-- `String.prototype.includes`: substring test.  (JavaScript compares
UTF-16 code units, this compares code points; for the ASCII patterns used
by the component the two agree.) -/
def includes (s pat : String) : Bool := includesChars s.data pat.data

/-- The text a template literal produces for `${err.message}`. -/
def templateOfMessage : Option String → String
  | some m => m
  | none => "undefined"

/-! ## Data -/

/-- The `address` of `useAccount()`: a `0x`-prefixed hex string, hence
truthy whenever it is defined. -/
structure Address where
  hex : String
  deriving DecidableEq, Repr

/-- The wallet client of `useWalletClient()`. -/
structure WalletClient where
  handle : Nat
  deriving DecidableEq, Repr

/-- The storage client returned by `create()`. -/
structure Client where
  handle : Nat
  deriving DecidableEq, Repr

/-- The `File` picked in the file dialog: the three properties the handler
reads. -/
structure File where
  name : String
  size : Nat
  type : String
  deriving DecidableEq, Repr

/-- The content identifier returned by `client.uploadFile`, represented by
what `toString()` gives. -/
structure CID where
  str : String
  deriving DecidableEq, Repr

/-- The tuple `fileInfo` returned by `contract.read.files`: its slots
`fileInfo[0]` .. `fileInfo[6]`.  `V` is the type of the values the binding
decodes (fixed by the ABI, which is not part of the sources). -/
structure FileInfo (V : Type) where
  f0 : V
  f1 : V
  f2 : V
  f3 : V
  f4 : V
  f5 : V
  f6 : V
  deriving DecidableEq, Repr

/-- The object pushed onto `files` for one record. -/
structure FileEntry (V : Type) where
  id : Int
  fileHash : V
  fileSize : V
  fileType : V
  fileName : V
  timestamp : V
  uploader : V
  deriving DecidableEq, Repr

/-- The contract instance built by `getContract`: the two reads and the
write that the component calls. -/
structure Contract (V : Type) where
  fileCount : Except Thrown V
  files : Address → Nat → Except Thrown (FileInfo V)
  uploadFile : List String → Except Thrown String

/-- An external call made by a routine. -/
inductive Call where
  | create
  | login (email : String)
  | readFileCount
  | readFiles (address : Address) (index : Nat)
  | storageUpload (file : File)
  | contractWrite (args : List String)
  deriving DecidableEq, Repr

/-- What the component is rendered with, and how the libraries answer.
`Number` is the JavaScript `Number(·)` conversion on the values decoded by
the binding (integer-valued on the unsigned integers of the ABI).
`create k` is the answer of the `k`-th call of `create()`. -/
structure Env (V : Type) where
  Number : V → Int
  address : Option Address
  walletClient : Option WalletClient
  getContract : WalletClient → Contract V
  create : Nat → Except Thrown Client
  login : Client → String → Except Thrown Unit
  uploadFile : Client → File → Except Thrown CID

/-- The `useState` variables of `App`. -/
structure AppState (V : Type) where
  client : Option Client
  cid : String
  loading : Bool
  uploadProgress : Nat
  initError : Option String
  isInitializing : Bool
  file : Option File
  fileName : Option String
  fileSize : Option Nat
  fileType : Option String
  txHash : Option String
  uploadStage : String
  fileCount : Int
  isGettingFiles : Bool
  uploadedFiles : List (FileEntry V)
  showFilesList : Bool
  deriving DecidableEq, Repr

/-- The initial values passed to `useState`. -/
def initialState (V : Type) : AppState V where
  client := none
  cid := ""
  loading := false
  uploadProgress := 0
  initError := none
  isInitializing := true
  file := none
  fileName := none
  fileSize := none
  fileType := none
  txHash := none
  uploadStage := ""
  fileCount := 0
  isGettingFiles := false
  uploadedFiles := []
  showFilesList := false

/-- The result of running a routine to completion. -/
structure Outcome (V : Type) where
  state : AppState V
  alerts : List String
  calls : List Call
  rejected : Bool
  deriving DecidableEq, Repr

/-! ## `getContractInstance` -/

/-- `getContractInstance`: `null` without a wallet client, otherwise the
instance built by `getContract`. -/
def getContractInstance {V : Type} (env : Env V) : Option (Contract V) :=
  match env.walletClient with
  | none => none
  | some w => some (env.getContract w)

/-! ## `getFilesUploaded` -/

/-- The object literal pushed for `fileInfo`. -/
def toEntry {V : Type} (Number : V → Int) (fileInfo : FileInfo V) : FileEntry V where
  id := Number fileInfo.f0
  fileHash := fileInfo.f1
  fileSize := fileInfo.f2
  fileType := fileInfo.f3
  fileName := fileInfo.f4
  timestamp := fileInfo.f5
  uploader := fileInfo.f6

/-- What the `while (true)` loop leaves behind: the `files` array and the
indices it passed to `contract.read.files`, in order. -/
structure Scan (V : Type) where
  files : List (FileEntry V)
  reads : List Nat
  deriving DecidableEq, Repr

/-- The `while (true)` loop of `getFilesUploaded`, one unit of fuel per
iteration; `none` when the fuel runs out before a `break`. -/
def scanLoop {V : Type} (Number : V → Int) (read : Nat → Except Thrown (FileInfo V)) :
    Nat → Nat → List (FileEntry V) → List Nat → Option (Scan V)
  | 0, _, _, _ => none
  | fuel + 1, userFileIndex, files, reads =>
    match read userFileIndex with
    | .ok fileInfo =>
      if Number fileInfo.f0 > 0 then
        scanLoop Number read fuel (userFileIndex + 1) (files ++ [toEntry Number fileInfo])
          (reads ++ [userFileIndex])
      else
        some { files := files, reads := reads ++ [userFileIndex] }
    | .error _ =>
      some { files := files, reads := reads ++ [userFileIndex] }

/-- The routine `getFilesUploaded`, with `fuel` bounding the iterations of
its loop; `none` when the loop is still running after `fuel` iterations. -/
def getFilesUploaded {V : Type} (env : Env V) (fuel : Nat) (s : AppState V) :
    Option (Outcome V) :=
  match getContractInstance env, env.address with
  | none, _ | _, none =>
    some { state := s, alerts := ["Please connect your wallet first!"], calls := [],
           rejected := false }
  | some contract, some address =>
    let s1 := { s with isGettingFiles := true }
    match contract.fileCount with
    | .error .nullish =>
      -- `err.message` throws inside the `catch` block; `finally` still runs
      some { state := { s1 with isGettingFiles := false }, alerts := [],
             calls := [.readFileCount], rejected := true }
    | .error (.value message) =>
      some { state := { s1 with isGettingFiles := false },
             alerts := ["Failed to get files: " ++ templateOfMessage message],
             calls := [.readFileCount], rejected := false }
    | .ok count =>
      let s2 := { s1 with fileCount := env.Number count }
      match scanLoop env.Number (contract.files address) fuel 0 [] [] with
      | none => none
      | some scan =>
        let s3 := { s2 with uploadedFiles := scan.files, showFilesList := true }
        some { state := { s3 with isGettingFiles := false },
               alerts := if scan.files.length = 0 then
                   ["No files found for your address. Upload some files first!"]
                 else [],
               calls := .readFileCount :: scan.reads.map (Call.readFiles address),
               rejected := false }

/-! ## The `onchange` handler installed by `handleFileUpload` -/

/-- The `catch (err)` block of the upload handler and the
`setLoading(false)` that follows the `try` statement.  When `err.message`
cannot be read, or is not a string so that `.includes` is not callable, the
block throws and the statement after it is not reached. -/
def uploadCatch {V : Type} (s : AppState V) (calls : List Call) (err : Thrown) : Outcome V :=
  let s1 := { s with uploadProgress := 0, uploadStage := "" }
  match err with
  | .nullish => { state := s1, alerts := [], calls := calls, rejected := true }
  | .value none => { state := s1, alerts := [], calls := calls, rejected := true }
  | .value (some message) =>
    let shown :=
      if includes message "User rejected" then "Transaction was rejected by user."
      else if includes message "insufficient funds" then "Insufficient funds for gas fees."
      else "Upload failed: " ++ message
    { state := { s1 with loading := false }, alerts := [shown], calls := calls,
      rejected := false }

/-- The array passed to `contract.write.uploadFile`. -/
def uploadArgs (uploadedCid : CID) (selectedFile : File) : List String :=
  [uploadedCid.str,
   toString selectedFile.size,
   if selectedFile.type = "" then "unknown" else selectedFile.type,
   selectedFile.name]

/-- The handler that `handleFileUpload` installs on the file input, run on
the file `e.target.files[0]` (absent when the dialog yields none). -/
def handleFileUpload {V : Type} (env : Env V) (selectedFile : Option File) (s : AppState V) :
    Outcome V :=
  match selectedFile, s.client with
  | none, _ | _, none => { state := s, alerts := [], calls := [], rejected := false }
  | some selectedFile, some client =>
    match env.address with
    | none =>
      { state := s, alerts := ["Please connect your wallet first!"], calls := [],
        rejected := false }
    | some _ =>
      match getContractInstance env with
      | none =>
        { state := s,
          alerts := ["Contract not available. Please make sure your wallet is connected."],
          calls := [], rejected := false }
      | some contract =>
        let s1 := { s with file := some selectedFile, fileName := some selectedFile.name,
                           fileSize := some selectedFile.size,
                           fileType := some selectedFile.type,
                           loading := true, uploadProgress := 0 }
        let s2 := { s1 with uploadStage := "ipfs" }
        match env.uploadFile client selectedFile with
        | .error err => uploadCatch s2 [.storageUpload selectedFile] err
        | .ok uploadedCid =>
          let s3 := { s2 with uploadProgress := 50, uploadStage := "blockchain" }
          let args := uploadArgs uploadedCid selectedFile
          match contract.uploadFile args with
          | .error err =>
            uploadCatch s3 [.storageUpload selectedFile, .contractWrite args] err
          | .ok uploadTxn =>
            let s4 := { s3 with txHash := some uploadTxn, uploadProgress := 100,
                                uploadStage := "complete", cid := uploadedCid.str }
            let s5 := { s4 with file := none, fileName := none, fileSize := none,
                                fileType := none }
            { state := { s5 with loading := false }, alerts := [],
              calls := [.storageUpload selectedFile, .contractWrite args],
              rejected := false }

/-! ## The storage-client `setup` effect -/

/-- The address passed to `login`. -/
def loginEmail : String := "divijvermav8@gmail.com"

/-- The `catch (error)` block of `setup` followed by its `finally`. -/
def setupCatch {V : Type} (env : Env V) (s : AppState V) (calls : List Call) (error : Thrown) :
    Outcome V :=
  match error with
  | .nullish =>
    { state := { s with isInitializing := false }, alerts := [], calls := calls,
      rejected := true }
  | .value message =>
    let s1 := { s with initError := message }
    match env.create 1 with
    | .ok w3upClient =>
      let s2 := { s1 with client := some w3upClient,
                          initError := some "Client ready but login may be required for uploads" }
      { state := { s2 with isInitializing := false }, alerts := [],
        calls := calls ++ [.create], rejected := false }
    | .error _ =>
      let s2 := { s1 with initError := some "Failed to initialize Web3.Storage client." }
      { state := { s2 with isInitializing := false }, alerts := [],
        calls := calls ++ [.create], rejected := false }

/-- The `setup` function run by the mount effect. -/
def setup {V : Type} (env : Env V) (s : AppState V) : Outcome V :=
  let s1 := { s with isInitializing := true, initError := none }
  match env.create 0 with
  | .error error => setupCatch env s1 [.create] error
  | .ok w3upClient =>
    match env.login w3upClient loginEmail with
    | .error error => setupCatch env s1 [.create, .login loginEmail] error
    | .ok _ =>
      let s2 := { s1 with client := some w3upClient }
      { state := { s2 with isInitializing := false }, alerts := [],
        calls := [.create, .login loginEmail], rejected := false }

/-! ## Conditions of the view -/

/-- Truthiness of a string-or-null state variable. -/
def truthy : Option String → Bool
  | some m => m != ""
  | none => false

/-- The guard `initError && !client` of the "Initialization Failed" banner. -/
def showsInitFailed {V : Type} (s : AppState V) : Bool :=
  truthy s.initError && s.client.isNone

/-- The guard `client && !isInitializing && !initError` of the
"Web3 client ready" banner. -/
def showsClientReady {V : Type} (s : AppState V) : Bool :=
  s.client.isSome && !s.isInitializing && !truthy s.initError

/-- The guard `cid` of the "Upload Successful!" panel. -/
def showsUploadSuccessful {V : Type} (s : AppState V) : Bool :=
  s.cid != ""

/-- The `disabled` attribute `!client || loading` of the upload button. -/
def uploadButtonDisabled {V : Type} (s : AppState V) : Bool :=
  s.client.isNone || s.loading

/-! ## Auxiliary notions used in the statements -/

/-- The loop leaves at `index`: the read throws, or the identifier of the
record read is not positive. -/
def stopsAt {V : Type} (Number : V → Int) (read : Nat → Except Thrown (FileInfo V))
    (index : Nat) : Prop :=
  match read index with
  | .ok fileInfo => ¬ (Number fileInfo.f0 > 0)
  | .error _ => True

instance {V : Type} (Number : V → Int) (read : Nat → Except Thrown (FileInfo V))
    (index : Nat) : Decidable (stopsAt Number read index) := by
  unfold stopsAt
  cases read index <;> infer_instance

/-- The index `n` is the least one at which the loop leaves. -/
def leastStop {V : Type} (Number : V → Int) (read : Nat → Except Thrown (FileInfo V))
    (n : Nat) : Prop :=
  stopsAt Number read n ∧ ∀ k, k < n → ¬ stopsAt Number read k

/-! ## Sample data for the concrete instances -/

/-- A record whose slots are `id, 10, 20, 30, 40, 50, 60`. -/
def sampleInfo (id : Nat) : FileInfo Nat :=
  { f0 := id, f1 := 10, f2 := 20, f3 := 30, f4 := 40, f5 := 50, f6 := 60 }

/-- Two records with ids `7` and `9`, then a throwing read at index 2. -/
def sampleRead : Nat → Except Thrown (FileInfo Nat)
  | 0 => .ok (sampleInfo 7)
  | 1 => .ok (sampleInfo 9)
  | _ => .error (.value (some "execution reverted"))

/-- A contract whose count is `5` and whose records are `sampleRead`. -/
def sampleContract : Contract Nat where
  fileCount := .ok 5
  files := fun _ => sampleRead
  uploadFile := fun _ => .ok "0xabc"

/-- A connected wallet in front of `sampleContract`. -/
def sampleEnv : Env Nat where
  Number := fun v => (v : Int)
  address := some { hex := "0x01" }
  walletClient := some { handle := 1 }
  getContract := fun _ => sampleContract
  create := fun _ => .ok { handle := 0 }
  login := fun _ _ => .ok ()
  uploadFile := fun _ _ => .ok { str := "bafy" }

/-- A file of 12 bytes with an empty type. -/
def sampleFile : File := { name := "a.txt", size := 12, type := "" }

/-- The answers of `sampleRead`, except that index 2 holds a record with
identifier 0. -/
def sentinelRead (i : Nat) : Except Thrown (FileInfo Nat) :=
  if i = 2 then .ok (sampleInfo 0) else sampleRead i

/-- The contract `sampleContract` with `sentinelRead` for its records. -/
def sentinelContract : Contract Nat where
  fileCount := .ok 5
  files := fun _ => sentinelRead
  uploadFile := fun _ => .ok "0xabc"

/-- The environment `sampleEnv` in front of `sentinelContract`. -/
def sentinelEnv : Env Nat where
  Number := fun v => (v : Int)
  address := some { hex := "0x01" }
  walletClient := some { handle := 1 }
  getContract := fun _ => sentinelContract
  create := fun _ => .ok { handle := 0 }
  login := fun _ _ => .ok ()
  uploadFile := fun _ _ => .ok { str := "bafy" }

/-- The component state once the storage client `0` is in place. -/
def readyState : AppState Nat :=
  { initialState Nat with client := some { handle := 0 }, isInitializing := false }

/-- The environment `sampleEnv` with a storage upload that throws an error
whose message mentions both a rejection and insufficient funds. -/
def rejectEnv : Env Nat :=
  { sampleEnv with
    uploadFile := fun _ _ =>
      .error (.value (some "User rejected the request: insufficient funds")) }

/-- The environment `sampleEnv` without a wallet: no address, no wallet
client. -/
def disconnectedEnv : Env Nat :=
  { sampleEnv with address := none, walletClient := none }

/-- The result of the `try` block of `setup`: the client when `create()`
and `login` both return, otherwise the value thrown by the one that
failed. -/
def firstAttempt {V : Type} (env : Env V) : Except Thrown Client :=
  match env.create 0 with
  | .error error => .error error
  | .ok w3upClient =>
    match env.login w3upClient loginEmail with
    | .error error => .error error
    | .ok _ => .ok w3upClient

/-- A contract whose count read rejects with `null`. -/
def nullCountContract : Contract Nat :=
  { sampleContract with fileCount := .error .nullish }

/-- The environment `sampleEnv` in front of `nullCountContract`. -/
def nullCountEnv : Env Nat :=
  { sampleEnv with getContract := fun _ => nullCountContract }

/-- A contract whose count read rejects with an error object. -/
def failingCountContract : Contract Nat :=
  { sampleContract with fileCount := .error (.value (some "network down")) }

/-- The environment `sampleEnv` in front of `failingCountContract`. -/
def failingCountEnv : Env Nat :=
  { sampleEnv with getContract := fun _ => failingCountContract }

/-- The environment `sampleEnv` with a `create()` that rejects with `null`
every time. -/
def nullCreateEnv : Env Nat :=
  { sampleEnv with create := fun _ => .error .nullish }

/-- The environment `sampleEnv` with a `login` that throws an error
object. -/
def loginFailEnv : Env Nat :=
  { sampleEnv with login := fun _ _ => .error (.value (some "login failed")) }

/-- The environment `sampleEnv` with a storage upload that rejects with a
value that has no `message` property (a thrown string, say). -/
def bareThrowEnv : Env Nat :=
  { sampleEnv with uploadFile := fun _ _ => .error (.value none) }

/-! ## The enumeration loop -/

/-- An index at which the loop does not leave holds a record with a
positive identifier. -/
theorem not_stopsAt_iff {V : Type} (Number : V → Int)
    (read : Nat → Except Thrown (FileInfo V)) (i : Nat) :
    ¬ stopsAt Number read i ↔ ∃ r, read i = .ok r ∧ 0 < Number r.f0 := by
  unfold stopsAt
  cases h : read i with
  | error e => simp
  | ok r => simp

/-- The loop started at index `i` with `n` continuing indices in front of a
leaving one: with more than `n` units of fuel it returns, having appended
the `n` records in order and read the indices `i, .., i + n`. -/
theorem scanLoop_returns {V : Type} (Number : V → Int)
    (read : Nat → Except Thrown (FileInfo V)) :
    ∀ (n fuel i : Nat) (files : List (FileEntry V)) (reads : List Nat),
      (∀ k, k < n → ¬ stopsAt Number read (i + k)) → stopsAt Number read (i + n) →
      n < fuel →
      ∃ extra : List (FileEntry V),
        scanLoop Number read fuel i files reads
            = some { files := files ++ extra, reads := reads ++ List.range' i (n + 1) } ∧
        extra.length = n ∧
        ∀ k, k < n → ∃ r, read (i + k) = .ok r ∧ 0 < Number r.f0 ∧
          extra[k]? = some (toEntry Number r) := by
  intro n
  induction n with
  | zero =>
    intro fuel i files reads _ hstop hfuel
    obtain ⟨fuel, rfl⟩ : ∃ f, fuel = f + 1 := ⟨fuel - 1, by omega⟩
    refine ⟨[], ?_, rfl, fun k hk => absurd hk (Nat.not_lt_zero k)⟩
    simp only [Nat.add_zero] at hstop
    unfold stopsAt at hstop
    unfold scanLoop
    cases h : read i with
    | error e => simp [List.range']
    | ok r =>
      rw [h] at hstop
      simp only [] at hstop
      simp [hstop, List.range']
  | succ n ih =>
    intro fuel i files reads hgo hstop hfuel
    obtain ⟨fuel, rfl⟩ : ∃ f, fuel = f + 1 := ⟨fuel - 1, by omega⟩
    obtain ⟨r, hr, hpos⟩ := (not_stopsAt_iff Number read i).1 (by simpa using hgo 0 (by omega))
    have hgo' : ∀ k, k < n → ¬ stopsAt Number read (i + 1 + k) := by
      intro k hk
      have := hgo (k + 1) (by omega)
      rwa [show i + (k + 1) = i + 1 + k by omega] at this
    have hstop' : stopsAt Number read (i + 1 + n) := by
      rwa [show i + (n + 1) = i + 1 + n by omega] at hstop
    obtain ⟨extra, hrun, hlen, hget⟩ :=
      ih fuel (i + 1) (files ++ [toEntry Number r]) (reads ++ [i]) hgo' hstop' (by omega)
    refine ⟨toEntry Number r :: extra, ?_, by simp [hlen], ?_⟩
    · unfold scanLoop
      simp only [hr, hpos, if_true]
      rw [hrun]
      simp [List.range']
    · intro k hk
      cases k with
      | zero => exact ⟨r, by simpa using hr, hpos, by simp⟩
      | succ k =>
        obtain ⟨r', hr', hpos', hk'⟩ := hget k (by omega)
        refine ⟨r', ?_, hpos', by simpa using hk'⟩
        rwa [show i + (k + 1) = i + 1 + k by omega]

/-- The loop does not return while every index it can reach within its
fuel continues. -/
theorem scanLoop_none {V : Type} (Number : V → Int)
    (read : Nat → Except Thrown (FileInfo V)) :
    ∀ (fuel i : Nat) (files : List (FileEntry V)) (reads : List Nat),
      (∀ k, k < fuel → ¬ stopsAt Number read (i + k)) →
      scanLoop Number read fuel i files reads = none := by
  intro fuel
  induction fuel with
  | zero => intro i files reads _; rfl
  | succ fuel ih =>
    intro i files reads hgo
    obtain ⟨r, hr, hpos⟩ := (not_stopsAt_iff Number read i).1 (by simpa using hgo 0 (by omega))
    unfold scanLoop
    simp only [hr, hpos, if_true]
    apply ih
    intro k hk
    have := hgo (k + 1) (by omega)
    rwa [show i + (k + 1) = i + 1 + k by omega] at this

/-- A leaving index has a least one below or at it. -/
theorem exists_leastStop {V : Type} (Number : V → Int)
    (read : Nat → Except Thrown (FileInfo V)) (m : Nat) (h : stopsAt Number read m) :
    ∃ n, n ≤ m ∧ leastStop Number read n := by
  classical
  have hex : ∃ n, stopsAt Number read n := ⟨m, h⟩
  exact ⟨Nat.find hex, Nat.find_min' hex h, Nat.find_spec hex, fun k hk => Nat.find_min hex hk⟩

/-- With contract and address present and the count read answered,
`getFilesUploaded` is its loop followed by the three setters and
`finally`. -/
theorem getFilesUploaded_of_count {V : Type} (env : Env V) (s : AppState V)
    (c : Contract V) (a : Address) (count : V) (fuel : Nat)
    (hc : getContractInstance env = some c) (ha : env.address = some a)
    (hcount : c.fileCount = .ok count) :
    getFilesUploaded env fuel s =
      (scanLoop env.Number (c.files a) fuel 0 [] []).map fun scan =>
        { state := { s with fileCount := env.Number count, uploadedFiles := scan.files,
                            showFilesList := true, isGettingFiles := false },
          alerts := if scan.files.length = 0 then
              ["No files found for your address. Upload some files first!"]
            else [],
          calls := .readFileCount :: scan.reads.map (Call.readFiles a),
          rejected := false } := by
  unfold getFilesUploaded
  simp only [hc, ha, hcount]
  cases scanLoop env.Number (c.files a) fuel 0 [] [] <;> rfl

/-- The loop from index 0 with `n` the least leaving index. -/
theorem scanLoop_leastStop {V : Type} (Number : V → Int)
    (read : Nat → Except Thrown (FileInfo V)) (n fuel : Nat)
    (hn : leastStop Number read n) (hfuel : n < fuel) :
    ∃ files : List (FileEntry V),
      scanLoop Number read fuel 0 [] [] = some { files := files, reads := List.range (n + 1) } ∧
      files.length = n ∧
      ∀ k, k < n → ∃ r, read k = .ok r ∧ 0 < Number r.f0 ∧
        files[k]? = some (toEntry Number r) := by
  obtain ⟨extra, hrun, hlen, hget⟩ :=
    scanLoop_returns Number read n fuel 0 [] []
      (fun k hk => by simpa using hn.2 k hk) (by simpa using hn.1) hfuel
  refine ⟨extra, ?_, hlen, ?_⟩
  · rw [hrun]
    simp [List.range_eq_range']
  · intro k hk
    simpa using hget k hk

/-- C1. For a read function whose scan stops, with `n` the least index
whose read throws or returns a record with a non-positive identifier,
`getFilesUploaded` returns (given more than `n` iterations) and the list it
stores has exactly `n` entries, the `k`-th built from the record read at
index `k`: its id is the `Number` of slot 0 and is positive, and its
fileHash, fileSize, fileType, fileName, timestamp, uploader are slots
1 to 6; every entry of the list has a positive id. -/
theorem getFilesUploaded_collects {V : Type} (env : Env V) (s : AppState V)
    (c : Contract V) (a : Address) (count : V) (n fuel : Nat)
    (hc : getContractInstance env = some c) (ha : env.address = some a)
    (hcount : c.fileCount = .ok count)
    (hn : leastStop env.Number (c.files a) n) (hfuel : n < fuel) :
    ∃ out, getFilesUploaded env fuel s = some out ∧
      out.state.uploadedFiles.length = n ∧
      (∀ k, k < n → ∃ r, c.files a k = .ok r ∧ 0 < env.Number r.f0 ∧
        out.state.uploadedFiles[k]? =
          some { id := env.Number r.f0, fileHash := r.f1, fileSize := r.f2,
                 fileType := r.f3, fileName := r.f4, timestamp := r.f5,
                 uploader := r.f6 }) ∧
      (∀ e, e ∈ out.state.uploadedFiles → 0 < e.id) := by
  obtain ⟨files, hrun, hlen, hget⟩ := scanLoop_leastStop env.Number (c.files a) n fuel hn hfuel
  rw [getFilesUploaded_of_count env s c a count fuel hc ha hcount, hrun]
  refine ⟨_, rfl, hlen, ?_, ?_⟩
  · intro k hk
    obtain ⟨r, hr, hpos, hk'⟩ := hget k hk
    exact ⟨r, hr, hpos, hk'⟩
  · intro e he
    obtain ⟨k, hk, hek⟩ := List.getElem_of_mem he
    have hk' : k < n := by
      have : k < files.length := hk
      omega
    obtain ⟨r, _, hpos, hget'⟩ := hget k hk'
    have : files[k]? = some e := by
      rw [← hek]
      exact List.getElem?_eq_getElem hk
    rw [this] at hget'
    have he' : e = toEntry env.Number r := Option.some.inj hget'
    rw [he']
    exact hpos

/-- C1 at `sampleEnv`: two records, then a throwing read. -/
theorem getFilesUploaded_collects_witness :
    ∃ out, getFilesUploaded sampleEnv 3 (initialState Nat) = some out ∧
      out.state.uploadedFiles.length = 2 ∧
      (∀ k, k < 2 → ∃ r, sampleContract.files { hex := "0x01" } k = .ok r ∧
        0 < sampleEnv.Number r.f0 ∧
        out.state.uploadedFiles[k]? =
          some { id := sampleEnv.Number r.f0, fileHash := r.f1, fileSize := r.f2,
                 fileType := r.f3, fileName := r.f4, timestamp := r.f5,
                 uploader := r.f6 }) ∧
      (∀ e, e ∈ out.state.uploadedFiles → 0 < e.id) :=
  getFilesUploaded_collects sampleEnv (initialState Nat) sampleContract { hex := "0x01" } 5 2 3
    rfl rfl rfl ⟨by decide, fun k hk => by interval_cases k <;> decide⟩ (by decide)

/-- Two read functions that agree except at `n`, where one throws and the
other returns a record whose identifier is not positive, drive the loop to
the same result. -/
theorem scanLoop_error_eq_sentinel {V : Type} (Number : V → Int)
    (read read' : Nat → Except Thrown (FileInfo V)) (n : Nat) (e : Thrown) (r : FileInfo V)
    (hsame : ∀ i, i ≠ n → read' i = read i)
    (herr : read n = .error e) (hzero : read' n = .ok r) (hid : Number r.f0 = 0) :
    ∀ (fuel i : Nat) (files : List (FileEntry V)) (reads : List Nat),
      scanLoop Number read fuel i files reads = scanLoop Number read' fuel i files reads := by
  intro fuel
  induction fuel with
  | zero => intro i files reads; rfl
  | succ fuel ih =>
    intro i files reads
    by_cases hi : i = n
    · subst hi
      unfold scanLoop
      simp [herr, hzero, hid]
    · unfold scanLoop
      rw [hsame i hi]
      cases read i with
      | error e' => rfl
      | ok r' =>
        simp only []
        split
        · exact ih _ _ _
        · rfl

/-- C2. A throwing per-index read is end-of-list, not a failure of the
operation.  If the read at index `n` throws, then `getFilesUploaded` has
the same result (state, alerts, calls, for every fuel) as against a
contract that differs only in answering the read at `n` with a record of
identifier 0; and when the count read is answered and the loop reaches `n`,
that result is: `uploadedFiles` the `n` records read at indices below `n`,
`showFilesList` true, no rejection, and the only alert possible is the
"No files found" one for `n = 0`, never a "Failed to get files" one. -/
theorem getFilesUploaded_read_error_is_end {V : Type} (env env' : Env V)
    (c c' : Contract V) (a : Address) (n : Nat) (e : Thrown) (r : FileInfo V)
    (hNumber : env'.Number = env.Number)
    (hc : getContractInstance env = some c) (hc' : getContractInstance env' = some c')
    (ha : env.address = some a) (ha' : env'.address = some a)
    (hcnt : c'.fileCount = c.fileCount)
    (hsame : ∀ i, i ≠ n → c'.files a i = c.files a i)
    (herr : c.files a n = .error e)
    (hzero : c'.files a n = .ok r) (hid : env.Number r.f0 = 0) :
    (∀ fuel s, getFilesUploaded env fuel s = getFilesUploaded env' fuel s) ∧
    (∀ count s fuel, c.fileCount = .ok count →
      (∀ k, k < n → ¬ stopsAt env.Number (c.files a) k) → n < fuel →
      ∃ out, getFilesUploaded env fuel s = some out ∧
        out.state.uploadedFiles.length = n ∧
        (∀ k, k < n → ∃ rk, c.files a k = .ok rk ∧
          out.state.uploadedFiles[k]? = some (toEntry env.Number rk)) ∧
        out.state.showFilesList = true ∧
        out.rejected = false ∧
        out.alerts = (if n = 0 then
            ["No files found for your address. Upload some files first!"] else []) ∧
        ∀ m, ("Failed to get files: " ++ m) ∉ out.alerts) := by
  constructor
  · intro fuel s
    have hloop := scanLoop_error_eq_sentinel env.Number (c.files a) (c'.files a) n e r
      hsame herr hzero hid fuel 0 [] []
    unfold getFilesUploaded
    simp only [hc, hc', ha, ha', hcnt, hNumber, hloop]
  · intro count s fuel hcount hgo hfuel
    have hstop : stopsAt env.Number (c.files a) n := by
      unfold stopsAt
      rw [herr]
      trivial
    obtain ⟨files, hrun, hlen, hget⟩ :=
      scanLoop_leastStop env.Number (c.files a) n fuel ⟨hstop, hgo⟩ hfuel
    rw [getFilesUploaded_of_count env s c a count fuel hc ha hcount, hrun]
    refine ⟨_, rfl, hlen, ?_, rfl, rfl, ?_, ?_⟩
    · intro k hk
      obtain ⟨rk, hrk, _, hk'⟩ := hget k hk
      exact ⟨rk, hrk, hk'⟩
    · simp [hlen]
    · intro m hm
      simp only [Option.map] at hm
      split at hm
      · have h1 := List.mem_singleton.1 hm
        have h2 := congrArg String.data h1
        simp [String.data_append] at h2
      · simp at hm

/-- C2 at `sampleEnv` (the read at index 2 throws) against `sentinelEnv`
(the read at index 2 returns identifier 0). -/
theorem getFilesUploaded_read_error_is_end_witness :
    sampleContract.files { hex := "0x01" } 2 = .error (.value (some "execution reverted")) ∧
    sentinelContract.files { hex := "0x01" } 2 = .ok (sampleInfo 0) ∧
    getFilesUploaded sampleEnv 3 (initialState Nat)
      = getFilesUploaded sentinelEnv 3 (initialState Nat) ∧
    ∃ out, getFilesUploaded sampleEnv 3 (initialState Nat) = some out ∧
      out.state.uploadedFiles.length = 2 ∧
      (∀ k, k < 2 → ∃ rk, sampleContract.files { hex := "0x01" } k = .ok rk ∧
        out.state.uploadedFiles[k]? = some (toEntry sampleEnv.Number rk)) ∧
      out.state.showFilesList = true ∧
      out.rejected = false ∧
      out.alerts = (if 2 = 0 then
          ["No files found for your address. Upload some files first!"] else []) ∧
      ∀ m, ("Failed to get files: " ++ m) ∉ out.alerts :=
  have h := getFilesUploaded_read_error_is_end sampleEnv sentinelEnv sampleContract
    sentinelContract { hex := "0x01" } 2 (.value (some "execution reverted")) (sampleInfo 0)
    rfl rfl rfl rfl rfl rfl
    (fun i hi => by simp [sentinelContract, sampleContract, sentinelRead, hi]) rfl rfl rfl
  ⟨rfl, rfl, h.1 3 (initialState Nat),
    h.2 5 (initialState Nat) 3 rfl (fun k hk => by interval_cases k <;> decide) (by decide)⟩

/-- C3. The loop of `getFilesUploaded` is bounded by nothing but the
answers of the per-index reads; the count read before it plays no part.
With contract and address present and any count read: the routine returns
for some number of iterations exactly when some index has a throwing read
or a non-positive identifier; and with `n` the least such index it does not
return within `n` iterations, returns with any larger allowance, and has
then made, after the count read, the per-index reads at `0, 1, .., n` in
this order and no other. -/
theorem getFilesUploaded_terminates_iff {V : Type} (env : Env V) (s : AppState V)
    (c : Contract V) (a : Address) (count : V)
    (hc : getContractInstance env = some c) (ha : env.address = some a)
    (hcount : c.fileCount = .ok count) :
    ((∃ fuel out, getFilesUploaded env fuel s = some out) ↔
      ∃ n, stopsAt env.Number (c.files a) n) ∧
    (∀ n, leastStop env.Number (c.files a) n → ∀ fuel,
      (fuel ≤ n → getFilesUploaded env fuel s = none) ∧
      (n < fuel → ∃ out, getFilesUploaded env fuel s = some out ∧
        out.calls = .readFileCount :: (List.range (n + 1)).map (Call.readFiles a))) := by
  have hleast : ∀ n, leastStop env.Number (c.files a) n → ∀ fuel,
      (fuel ≤ n → getFilesUploaded env fuel s = none) ∧
      (n < fuel → ∃ out, getFilesUploaded env fuel s = some out ∧
        out.calls = .readFileCount :: (List.range (n + 1)).map (Call.readFiles a)) := by
    intro n hn fuel
    constructor
    · intro hle
      rw [getFilesUploaded_of_count env s c a count fuel hc ha hcount,
        scanLoop_none env.Number (c.files a) fuel 0 [] []
          (fun k hk => by simpa using hn.2 k (by omega))]
      rfl
    · intro hlt
      obtain ⟨files, hrun, _, _⟩ := scanLoop_leastStop env.Number (c.files a) n fuel hn hlt
      rw [getFilesUploaded_of_count env s c a count fuel hc ha hcount, hrun]
      exact ⟨_, rfl, rfl⟩
  refine ⟨⟨?_, ?_⟩, hleast⟩
  · rintro ⟨fuel, out, hout⟩
    by_contra hnone
    have hgo : ∀ k, ¬ stopsAt env.Number (c.files a) k := fun k hk => hnone ⟨k, hk⟩
    rw [getFilesUploaded_of_count env s c a count fuel hc ha hcount,
      scanLoop_none env.Number (c.files a) fuel 0 [] [] (fun k _ => hgo _)] at hout
    simp at hout
  · rintro ⟨m, hm⟩
    obtain ⟨n, _, hn⟩ := exists_leastStop env.Number (c.files a) m hm
    obtain ⟨out, hout, _⟩ := (hleast n hn (n + 1)).2 (by omega)
    exact ⟨n + 1, out, hout⟩

/-- C3 at `sampleEnv`: the count read is 5, the least leaving index is 2;
two iterations do not suffice, three do, and the reads are at 0, 1, 2. -/
theorem getFilesUploaded_terminates_iff_witness :
    sampleContract.fileCount = .ok 5 ∧
    leastStop sampleEnv.Number (sampleContract.files { hex := "0x01" }) 2 ∧
    getFilesUploaded sampleEnv 2 (initialState Nat) = none ∧
    ∃ out, getFilesUploaded sampleEnv 3 (initialState Nat) = some out ∧
      out.calls = .readFileCount ::
        (List.range (2 + 1)).map (Call.readFiles { hex := "0x01" }) :=
  have hn : leastStop sampleEnv.Number (sampleContract.files { hex := "0x01" }) 2 :=
    ⟨by decide, fun k hk => by interval_cases k <;> decide⟩
  have h := getFilesUploaded_terminates_iff sampleEnv (initialState Nat) sampleContract
    { hex := "0x01" } 5 rfl rfl rfl
  ⟨rfl, hn, ((h.2 2 hn) 2).1 (by decide), ((h.2 2 hn) 3).2 (by decide)⟩

/-! ## The upload handler -/

/-- C4. In an upload attempt (guards passed) whose storage upload or whose
contract write throws an error with string message `m`, exactly one alert
is shown, chosen by first match: the rejected-transaction text if `m`
contains "User rejected"; otherwise the insufficient-funds text if `m`
contains "insufficient funds"; otherwise "Upload failed: " followed by
`m`. -/
theorem handleFileUpload_error_alert {V : Type} (env : Env V) (s : AppState V) (f : File)
    (client : Client) (a : Address) (c : Contract V) (m : String)
    (hclient : s.client = some client) (ha : env.address = some a)
    (hc : getContractInstance env = some c)
    (hthrow : env.uploadFile client f = .error (.value (some m)) ∨
      ∃ cid, env.uploadFile client f = .ok cid ∧
        c.uploadFile (uploadArgs cid f) = .error (.value (some m))) :
    ∃ shown, (handleFileUpload env (some f) s).alerts = [shown] ∧
      (includes m "User rejected" = true → shown = "Transaction was rejected by user.") ∧
      (includes m "User rejected" = false → includes m "insufficient funds" = true →
        shown = "Insufficient funds for gas fees.") ∧
      (includes m "User rejected" = false → includes m "insufficient funds" = false →
        shown = "Upload failed: " ++ m) := by
  have key : (handleFileUpload env (some f) s).alerts =
      [if includes m "User rejected" then "Transaction was rejected by user."
       else if includes m "insufficient funds" then "Insufficient funds for gas fees."
       else "Upload failed: " ++ m] := by
    unfold handleFileUpload
    rcases hthrow with hup | ⟨cid, hup, hwr⟩
    · simp only [hclient, ha, hc, hup, uploadCatch]
    · simp only [hclient, ha, hc, hup, hwr, uploadCatch]
  refine ⟨_, key, ?_, ?_, ?_⟩
  · intro h1
    simp [h1]
  · intro h1 h2
    simp [h1, h2]
  · intro h1 h2
    simp [h1, h2]

/-- C4 at `rejectEnv`: the message contains both substrings and the alert
is the rejected-transaction one. -/
theorem handleFileUpload_error_alert_witness :
    includes "User rejected the request: insufficient funds" "User rejected" = true ∧
    includes "User rejected the request: insufficient funds" "insufficient funds" = true ∧
    (handleFileUpload rejectEnv (some sampleFile) readyState).alerts
      = ["Transaction was rejected by user."] :=
  ⟨by decide, by decide,
    match handleFileUpload_error_alert rejectEnv readyState sampleFile { handle := 0 }
        { hex := "0x01" } sampleContract "User rejected the request: insufficient funds"
        rfl rfl rfl (Or.inl rfl) with
    | ⟨_, h1, h2, _, _⟩ => by rw [h1, h2 (by decide)]⟩

/-- C5. In an upload attempt whose storage upload returns the content
identifier `cid`, the contract write is called, once, with the four
strings: the string form of `cid`, the decimal string of the size of the
file, the type of the file or "unknown" when the type is empty, and the name
of the file, in this order. -/
theorem handleFileUpload_write_args {V : Type} (env : Env V) (s : AppState V) (f : File)
    (client : Client) (a : Address) (c : Contract V) (cid : CID)
    (hclient : s.client = some client) (ha : env.address = some a)
    (hc : getContractInstance env = some c)
    (hup : env.uploadFile client f = .ok cid) :
    (handleFileUpload env (some f) s).calls =
      [.storageUpload f,
       .contractWrite [cid.str, Nat.repr f.size,
                       if f.type ≠ "" then f.type else "unknown", f.name]] := by
  have hargs : uploadArgs cid f =
      [cid.str, Nat.repr f.size, if f.type ≠ "" then f.type else "unknown", f.name] := by
    unfold uploadArgs
    by_cases ht : f.type = "" <;> simp [ht] <;> rfl
  unfold handleFileUpload
  simp only [hclient, ha, hc, hup]
  cases hwr : c.uploadFile (uploadArgs cid f) with
  | ok tx => simp only [hargs]
  | error err =>
    cases err with
    | nullish => simp only [uploadCatch, hargs]
    | value message =>
      cases message <;> simp only [uploadCatch, hargs]

/-- C5 at `sampleEnv`: a file of 12 bytes with an empty type. -/
theorem handleFileUpload_write_args_witness :
    sampleEnv.uploadFile { handle := 0 } sampleFile = .ok { str := "bafy" } ∧
    (handleFileUpload sampleEnv (some sampleFile) readyState).calls =
      [.storageUpload sampleFile, .contractWrite ["bafy", "12", "unknown", "a.txt"]] :=
  ⟨rfl, handleFileUpload_write_args sampleEnv readyState sampleFile { handle := 0 }
    { hex := "0x01" } sampleContract { str := "bafy" } rfl rfl rfl rfl⟩

/-- The external calls of the handler, by the way it ends. -/
theorem handleFileUpload_calls_cases {V : Type} (env : Env V) (selectedFile : Option File)
    (s : AppState V) :
    ((handleFileUpload env selectedFile s).calls = [] ∧
      (handleFileUpload env selectedFile s).state = s) ∨
    (∃ f client e, selectedFile = some f ∧ s.client = some client ∧
      env.uploadFile client f = .error e ∧
      (handleFileUpload env selectedFile s).calls = [.storageUpload f] ∧
      (handleFileUpload env selectedFile s).state.cid = s.cid) ∨
    (∃ f client c cid e, selectedFile = some f ∧ s.client = some client ∧
      getContractInstance env = some c ∧
      env.uploadFile client f = .ok cid ∧ c.uploadFile (uploadArgs cid f) = .error e ∧
      (handleFileUpload env selectedFile s).calls
        = [.storageUpload f, .contractWrite (uploadArgs cid f)] ∧
      (handleFileUpload env selectedFile s).state.cid = s.cid) ∨
    (∃ f client c cid tx, selectedFile = some f ∧ s.client = some client ∧
      getContractInstance env = some c ∧
      env.uploadFile client f = .ok cid ∧ c.uploadFile (uploadArgs cid f) = .ok tx ∧
      (handleFileUpload env selectedFile s).calls
        = [.storageUpload f, .contractWrite (uploadArgs cid f)] ∧
      (handleFileUpload env selectedFile s).state =
        { s with file := none, fileName := none, fileSize := none, fileType := none,
                 loading := false, uploadProgress := 100, uploadStage := "complete",
                 txHash := some tx, cid := cid.str }) := by
  cases hf : selectedFile with
  | none => left; unfold handleFileUpload; simp
  | some f =>
    cases hclient : s.client with
    | none => left; unfold handleFileUpload; simp [hclient]
    | some client =>
      cases ha : env.address with
      | none => left; unfold handleFileUpload; simp [hclient, ha]
      | some a =>
        cases hc : getContractInstance env with
        | none => left; unfold handleFileUpload; simp [hclient, ha, hc]
        | some c =>
          cases hup : env.uploadFile client f with
          | error e =>
            right; left
            refine ⟨f, client, e, rfl, rfl, hup, ?_, ?_⟩ <;>
            · unfold handleFileUpload
              simp only [hclient, ha, hc, hup]
              rcases e with _ | _ | _ <;> rfl
          | ok cid =>
            cases hwr : c.uploadFile (uploadArgs cid f) with
            | error e =>
              right; right; left
              refine ⟨f, client, c, cid, e, rfl, rfl, rfl, hup, hwr, ?_, ?_⟩ <;>
              · unfold handleFileUpload
                simp only [hclient, ha, hc, hup, hwr]
                rcases e with _ | _ | _ <;> rfl
            | ok tx =>
              right; right; right
              refine ⟨f, client, c, cid, tx, rfl, rfl, rfl, hup, hwr, ?_, ?_⟩ <;>
              · unfold handleFileUpload
                simp only [hclient, ha, hc, hup, hwr]

/-- C6. One run of the upload handler calls the storage upload at most
once and the contract write at most once, and never repeats a call after a
failure: its external calls are none, or the storage upload alone, or the
storage upload followed by the contract write, the latter only when the
storage upload of this run has returned a content identifier.  When the
storage upload throws, no contract write is made. -/
theorem handleFileUpload_single_shot {V : Type} (env : Env V) (selectedFile : Option File)
    (s : AppState V) :
    ((handleFileUpload env selectedFile s).calls = [] ∨
      (∃ f, selectedFile = some f ∧
        (handleFileUpload env selectedFile s).calls = [.storageUpload f]) ∨
      (∃ f client cid args, selectedFile = some f ∧ s.client = some client ∧
        env.uploadFile client f = .ok cid ∧
        (handleFileUpload env selectedFile s).calls
          = [.storageUpload f, .contractWrite args])) ∧
    (∀ f client e, selectedFile = some f → s.client = some client →
      env.uploadFile client f = .error e →
      ∀ args, Call.contractWrite args ∉ (handleFileUpload env selectedFile s).calls) := by
  rcases handleFileUpload_calls_cases env selectedFile s with
    ⟨h, _⟩ | ⟨f, client, e, hf, hcl, hup, h, _⟩ | ⟨f, client, c, cid, e, hf, hcl, _, hup, _, h, _⟩ |
    ⟨f, client, c, cid, tx, hf, hcl, _, hup, _, h, _⟩
  · refine ⟨Or.inl h, ?_⟩
    intro _ _ _ _ _ _ args
    simp [h]
  · refine ⟨Or.inr (Or.inl ⟨f, hf, h⟩), ?_⟩
    intro _ _ _ _ _ _ args
    simp [h]
  · refine ⟨Or.inr (Or.inr ⟨f, client, cid, _, hf, hcl, hup, h⟩), ?_⟩
    intro f' client' e' hf' hcl' hup' args
    rw [hf] at hf'
    rw [hcl] at hcl'
    cases hf'
    cases hcl'
    rw [hup] at hup'
    cases hup'
  · refine ⟨Or.inr (Or.inr ⟨f, client, cid, _, hf, hcl, hup, h⟩), ?_⟩
    intro f' client' e' hf' hcl' hup' args
    rw [hf] at hf'
    rw [hcl] at hcl'
    cases hf'
    cases hcl'
    rw [hup] at hup'
    cases hup'

/-- C6 at `rejectEnv`: the storage upload throws and the only call is that
upload. -/
theorem handleFileUpload_single_shot_witness :
    (∃ e, rejectEnv.uploadFile { handle := 0 } sampleFile = .error e) ∧
    (handleFileUpload rejectEnv (some sampleFile) readyState).calls
      = [.storageUpload sampleFile] ∧
    ∀ args, Call.contractWrite args ∉
      (handleFileUpload rejectEnv (some sampleFile) readyState).calls :=
  ⟨⟨_, rfl⟩, by decide,
    (handleFileUpload_single_shot rejectEnv (some sampleFile) readyState).2 sampleFile
      { handle := 0 } _ rfl rfl rfl⟩

/-- C8. Without a connected wallet no external call is made and no state
changes.  The contract instance is null exactly when there is no wallet
client; `getFilesUploaded` returns at once with the state unchanged and no
call when the contract instance or the address is missing; the upload
handler ends with the state unchanged and no call when the selected file,
the storage client, the address or the contract instance is missing. -/
theorem no_external_call_when_disconnected {V : Type} (env : Env V)
    (selectedFile : Option File) (s : AppState V) :
    (getContractInstance env = none ↔ env.walletClient = none) ∧
    (getContractInstance env = none ∨ env.address = none →
      ∀ fuel, ∃ out, getFilesUploaded env fuel s = some out ∧
        out.calls = [] ∧ out.state = s) ∧
    (selectedFile = none ∨ s.client = none ∨ env.address = none ∨
        getContractInstance env = none →
      (handleFileUpload env selectedFile s).calls = [] ∧
      (handleFileUpload env selectedFile s).state = s) := by
  refine ⟨?_, ?_, ?_⟩
  · unfold getContractInstance
    cases env.walletClient <;> simp
  · intro h fuel
    unfold getFilesUploaded
    cases hc : getContractInstance env with
    | none => cases env.address <;> exact ⟨_, rfl, rfl, rfl⟩
    | some c =>
      cases ha : env.address with
      | none => exact ⟨_, rfl, rfl, rfl⟩
      | some a => simp [hc, ha] at h
  · intro h
    cases hf : selectedFile with
    | none => unfold handleFileUpload; simp
    | some f =>
      cases hcl : s.client with
      | none => unfold handleFileUpload; simp [hcl]
      | some client =>
        cases ha : env.address with
        | none => unfold handleFileUpload; simp [hcl, ha]
        | some a =>
          cases hc : getContractInstance env with
          | none => unfold handleFileUpload; simp [hcl, ha, hc]
          | some c => simp [hf, hcl, ha, hc] at h

/-- C8 at `disconnectedEnv`: neither routine makes a call or changes the
state. -/
theorem no_external_call_when_disconnected_witness :
    disconnectedEnv.walletClient = none ∧
    (∃ out, getFilesUploaded disconnectedEnv 7 readyState = some out ∧
      out.calls = [] ∧ out.state = readyState) ∧
    (handleFileUpload disconnectedEnv (some sampleFile) readyState).calls = [] ∧
    (handleFileUpload disconnectedEnv (some sampleFile) readyState).state = readyState :=
  have h := no_external_call_when_disconnected disconnectedEnv (some sampleFile) readyState
  ⟨rfl, h.2.1 (Or.inr rfl) 7, h.2.2 (Or.inr (Or.inr (Or.inl rfl)))⟩

/-- C9. A run of the upload handler changes `cid` only if both the storage
upload and the contract write of that run succeeded, and then `cid` is the
string form of the identifier returned by the storage upload, `txHash` is
the value returned by the contract write, the progress is 100, the stage is
"complete", and `file`, `fileName`, `fileSize`, `fileType` are null.  The
same state results whenever both calls succeed; and an "Upload Successful!"
panel that was not shown before the run and is shown after it stands on a
successful upload and a successful write. -/
theorem handleFileUpload_cid {V : Type} (env : Env V) (selectedFile : Option File)
    (s : AppState V) :
    (∀ f client a c cid tx, selectedFile = some f → s.client = some client →
      env.address = some a → getContractInstance env = some c →
      env.uploadFile client f = .ok cid → c.uploadFile (uploadArgs cid f) = .ok tx →
      (handleFileUpload env selectedFile s).state.cid = cid.str ∧
      (handleFileUpload env selectedFile s).state.txHash = some tx ∧
      (handleFileUpload env selectedFile s).state.uploadProgress = 100 ∧
      (handleFileUpload env selectedFile s).state.uploadStage = "complete" ∧
      (handleFileUpload env selectedFile s).state.file = none ∧
      (handleFileUpload env selectedFile s).state.fileName = none ∧
      (handleFileUpload env selectedFile s).state.fileSize = none ∧
      (handleFileUpload env selectedFile s).state.fileType = none) ∧
    ((handleFileUpload env selectedFile s).state.cid ≠ s.cid →
      ∃ f client c cid tx, selectedFile = some f ∧ s.client = some client ∧
        getContractInstance env = some c ∧
        env.uploadFile client f = .ok cid ∧ c.uploadFile (uploadArgs cid f) = .ok tx ∧
        (handleFileUpload env selectedFile s).state.cid = cid.str ∧
        (handleFileUpload env selectedFile s).state.txHash = some tx ∧
        (handleFileUpload env selectedFile s).state.uploadProgress = 100 ∧
        (handleFileUpload env selectedFile s).state.uploadStage = "complete" ∧
        (handleFileUpload env selectedFile s).state.file = none ∧
        (handleFileUpload env selectedFile s).state.fileName = none ∧
        (handleFileUpload env selectedFile s).state.fileSize = none ∧
        (handleFileUpload env selectedFile s).state.fileType = none) ∧
    (showsUploadSuccessful s = false →
      showsUploadSuccessful (handleFileUpload env selectedFile s).state = true →
      ∃ f client c cid tx, selectedFile = some f ∧ s.client = some client ∧
        getContractInstance env = some c ∧
        env.uploadFile client f = .ok cid ∧ c.uploadFile (uploadArgs cid f) = .ok tx ∧
        (handleFileUpload env selectedFile s).state.cid = cid.str ∧
        (handleFileUpload env selectedFile s).state.txHash = some tx) := by
  have hchange : (handleFileUpload env selectedFile s).state.cid ≠ s.cid →
      ∃ f client c cid tx, selectedFile = some f ∧ s.client = some client ∧
        getContractInstance env = some c ∧
        env.uploadFile client f = .ok cid ∧ c.uploadFile (uploadArgs cid f) = .ok tx ∧
        (handleFileUpload env selectedFile s).state.cid = cid.str ∧
        (handleFileUpload env selectedFile s).state.txHash = some tx ∧
        (handleFileUpload env selectedFile s).state.uploadProgress = 100 ∧
        (handleFileUpload env selectedFile s).state.uploadStage = "complete" ∧
        (handleFileUpload env selectedFile s).state.file = none ∧
        (handleFileUpload env selectedFile s).state.fileName = none ∧
        (handleFileUpload env selectedFile s).state.fileSize = none ∧
        (handleFileUpload env selectedFile s).state.fileType = none := by
    intro hne
    rcases handleFileUpload_calls_cases env selectedFile s with
      ⟨_, h⟩ | ⟨_, _, _, _, _, _, _, h⟩ | ⟨_, _, _, _, _, _, _, _, _, _, _, h⟩ |
      ⟨f, client, c, cid, tx, hf, hcl, hc, hup, hwr, _, h⟩
    · exact absurd (by rw [h]) hne
    · exact absurd h hne
    · exact absurd h hne
    · refine ⟨f, client, c, cid, tx, hf, hcl, hc, hup, hwr, ?_⟩
      rw [h]
      exact ⟨rfl, rfl, rfl, rfl, rfl, rfl, rfl, rfl⟩
  refine ⟨?_, hchange, ?_⟩
  · intro f client a c cid tx hf hcl ha hc hup hwr
    subst hf
    unfold handleFileUpload
    simp only [hcl, ha, hc, hup, hwr]
    exact ⟨trivial, trivial, trivial, trivial, trivial, trivial, trivial, trivial⟩
  · intro hbefore hafter
    have hne : (handleFileUpload env selectedFile s).state.cid ≠ s.cid := by
      intro heq
      unfold showsUploadSuccessful at hbefore hafter
      rw [heq, hbefore] at hafter
      exact Bool.false_ne_true hafter
    obtain ⟨f, client, c, cid, tx, hf, hcl, hc, hup, hwr, h1, h2, _⟩ := hchange hne
    exact ⟨f, client, c, cid, tx, hf, hcl, hc, hup, hwr, h1, h2⟩

/-- C9 at `sampleEnv`: both calls succeed. -/
theorem handleFileUpload_cid_witness :
    sampleEnv.uploadFile { handle := 0 } sampleFile = .ok { str := "bafy" } ∧
    sampleContract.uploadFile (uploadArgs { str := "bafy" } sampleFile) = .ok "0xabc" ∧
    (handleFileUpload sampleEnv (some sampleFile) readyState).state.cid = "bafy" ∧
    (handleFileUpload sampleEnv (some sampleFile) readyState).state.txHash = some "0xabc" ∧
    (handleFileUpload sampleEnv (some sampleFile) readyState).state.uploadProgress = 100 ∧
    (handleFileUpload sampleEnv (some sampleFile) readyState).state.uploadStage = "complete" ∧
    (handleFileUpload sampleEnv (some sampleFile) readyState).state.file = none ∧
    (handleFileUpload sampleEnv (some sampleFile) readyState).state.fileName = none ∧
    (handleFileUpload sampleEnv (some sampleFile) readyState).state.fileSize = none ∧
    (handleFileUpload sampleEnv (some sampleFile) readyState).state.fileType = none :=
  ⟨rfl, rfl,
    (handleFileUpload_cid sampleEnv (some sampleFile) readyState).1 sampleFile { handle := 0 }
      { hex := "0x01" } sampleContract { str := "bafy" } "0xabc" rfl rfl rfl rfl rfl rfl⟩

/-! ## The frame of `getFilesUploaded` -/

/-- C7 fails on the code when the count read rejects with `null`: contract
and address are present, the read fails, and no alert is shown.  The outer
`catch` block sets out to show the "Failed to get files" alert and throws
on the unguarded `err.message` while building its text. -/
theorem getFilesUploaded_null_rejection_no_alert :
    (getContractInstance nullCountEnv).isSome = true ∧
    nullCountEnv.address = some { hex := "0x01" } ∧
    nullCountContract.fileCount = .error .nullish ∧
    getFilesUploaded nullCountEnv 1 readyState =
      some { state := readyState, alerts := [], calls := [.readFileCount], rejected := true } :=
  ⟨rfl, rfl, rfl, rfl⟩

/-- The frame of `getFilesUploaded`, for a call with contract and address
present: if the count read fails, then `uploadedFiles`,
`showFilesList` and `fileCount` (indeed every state variable) are as
before, `isGettingFiles` is false, and, when the thrown value is not
`null`/`undefined`, the one alert is "Failed to get files: " followed by
its message; if the count read returns and the scan stops at its least
leaving index `n`, then `uploadedFiles` is exactly the `n` records read in
this call, whatever it held before, `showFilesList` is true, `fileCount` is
the count read, `isGettingFiles` is false and nothing else changed. -/
theorem getFilesUploaded_frame {V : Type} (env : Env V) (s : AppState V)
    (c : Contract V) (a : Address)
    (hc : getContractInstance env = some c) (ha : env.address = some a) :
    (∀ e, c.fileCount = .error e → ∀ fuel,
      ∃ out, getFilesUploaded env fuel s = some out ∧
        out.state.uploadedFiles = s.uploadedFiles ∧
        out.state.showFilesList = s.showFilesList ∧
        out.state.fileCount = s.fileCount ∧
        out.state.isGettingFiles = false ∧
        out.state = { s with isGettingFiles := false } ∧
        out.calls = [.readFileCount] ∧
        (∀ message, e = .value message →
          out.alerts = ["Failed to get files: " ++ templateOfMessage message])) ∧
    (∀ count n, c.fileCount = .ok count → leastStop env.Number (c.files a) n →
      ∀ fuel, n < fuel →
      ∃ out, getFilesUploaded env fuel s = some out ∧
        out.state.uploadedFiles.length = n ∧
        (∀ k, k < n → ∃ rk, c.files a k = .ok rk ∧
          out.state.uploadedFiles[k]? = some (toEntry env.Number rk)) ∧
        out.state.showFilesList = true ∧
        out.state.fileCount = env.Number count ∧
        out.state.isGettingFiles = false ∧
        out.state = { s with uploadedFiles := out.state.uploadedFiles, showFilesList := true,
                             fileCount := env.Number count, isGettingFiles := false }) := by
  constructor
  · intro e he fuel
    unfold getFilesUploaded
    simp only [hc, ha, he]
    cases e with
    | nullish => exact ⟨_, rfl, rfl, rfl, rfl, rfl, rfl, rfl, fun m hm => by cases hm⟩
    | value message =>
      refine ⟨_, rfl, rfl, rfl, rfl, rfl, rfl, rfl, fun m hm => ?_⟩
      cases hm
      rfl
  · intro count n hcount hn fuel hfuel
    obtain ⟨files, hrun, hlen, hget⟩ :=
      scanLoop_leastStop env.Number (c.files a) n fuel hn hfuel
    rw [getFilesUploaded_of_count env s c a count fuel hc ha hcount, hrun]
    refine ⟨_, rfl, hlen, ?_, rfl, rfl, rfl, rfl⟩
    intro k hk
    obtain ⟨rk, hrk, _, hk'⟩ := hget k hk
    exact ⟨rk, hrk, hk'⟩

/-- The frame of `getFilesUploaded` at `failingCountEnv` (the count read
throws an error object) and at `sampleEnv` (the count read returns 5 and the scan stops at
index 2), from a state that already lists an entry. -/
theorem getFilesUploaded_frame_witness :
    (∃ out, getFilesUploaded failingCountEnv 1
        { readyState with uploadedFiles := [toEntry sampleEnv.Number (sampleInfo 3)] } = some out ∧
      out.state.uploadedFiles = [toEntry sampleEnv.Number (sampleInfo 3)] ∧
      out.state.isGettingFiles = false ∧
      out.alerts = ["Failed to get files: network down"]) ∧
    (∃ out, getFilesUploaded sampleEnv 3
        { readyState with uploadedFiles := [toEntry sampleEnv.Number (sampleInfo 3)] } = some out ∧
      out.state.uploadedFiles.length = 2 ∧
      out.state.showFilesList = true ∧
      out.state.fileCount = 5 ∧
      out.state.isGettingFiles = false) :=
  ⟨match (getFilesUploaded_frame failingCountEnv
        { readyState with uploadedFiles := [toEntry sampleEnv.Number (sampleInfo 3)] }
        failingCountContract { hex := "0x01" } rfl rfl).1 _ rfl 1 with
    | ⟨out, h, h1, _, _, h4, _, _, h7⟩ => ⟨out, h, h1, h4, h7 _ rfl⟩,
   match (getFilesUploaded_frame sampleEnv
        { readyState with uploadedFiles := [toEntry sampleEnv.Number (sampleInfo 3)] }
        sampleContract { hex := "0x01" } rfl rfl).2 5 2 rfl
        ⟨by decide, fun k hk => by interval_cases k <;> decide⟩ 3 (by decide) with
    | ⟨out, h, h1, _, h3, h4, h5, _⟩ => ⟨out, h, h1, h3, h4, h5⟩⟩

/-! ## The `setup` effect -/

/-- The `setup` function in terms of the result of its `try` block. -/
theorem setup_of_firstAttempt {V : Type} (env : Env V) (s : AppState V) :
    (∀ c, firstAttempt env = .ok c →
      (setup env s).state = { s with isInitializing := false, initError := none,
                                     client := some c }) ∧
    (firstAttempt env = .error .nullish →
      (setup env s).state = { s with isInitializing := false, initError := none }) ∧
    (∀ m c2, firstAttempt env = .error (.value m) → env.create 1 = .ok c2 →
      (setup env s).state =
        { s with isInitializing := false, client := some c2,
                 initError := some "Client ready but login may be required for uploads" }) ∧
    (∀ m e2, firstAttempt env = .error (.value m) → env.create 1 = .error e2 →
      (setup env s).state =
        { s with isInitializing := false,
                 initError := some "Failed to initialize Web3.Storage client." }) := by
  unfold firstAttempt setup
  cases h0 : env.create 0 with
  | error e =>
    refine ⟨?_, ?_, ?_, ?_⟩
    · intro c h; cases h
    · intro h; cases h; rfl
    · intro m c2 h h1; cases h; simp only [setupCatch, h1]
    · intro m e2 h h1; cases h; simp only [setupCatch, h1]
  | ok c =>
    simp only []
    cases hl : env.login c loginEmail with
    | error e =>
      refine ⟨?_, ?_, ?_, ?_⟩
      · intro c h; cases h
      · intro h; cases h; rfl
      · intro m c2 h h1; cases h; simp only [setupCatch, h1]
      · intro m e2 h h1; cases h; simp only [setupCatch, h1]
    | ok u =>
      refine ⟨?_, ?_, ?_, ?_⟩
      · intro c' h; cases h; rfl
      · intro h; cases h
      · intro m c2 h; cases h
      · intro m e2 h; cases h

/-- C10 fails on the code when `create()` rejects with `null`: after
`setup` the client is null and `initError` is null, which is none of the
three outcomes.  The `catch` block sets out to record the error and to run
the fallback `create`, and throws on the unguarded `error.message` before
either. -/
theorem setup_null_rejection_fourth_outcome :
    nullCreateEnv.create 0 = .error .nullish ∧
    (setup nullCreateEnv (initialState Nat)).state.isInitializing = false ∧
    (setup nullCreateEnv (initialState Nat)).state.client = none ∧
    (setup nullCreateEnv (initialState Nat)).state.initError = none ∧
    ¬ (((setup nullCreateEnv (initialState Nat)).state.client.isSome = true ∧
          (setup nullCreateEnv (initialState Nat)).state.initError = none) ∨
       ((setup nullCreateEnv (initialState Nat)).state.client.isSome = true ∧
          (setup nullCreateEnv (initialState Nat)).state.initError
            = some "Client ready but login may be required for uploads") ∨
       ((setup nullCreateEnv (initialState Nat)).state.client = none ∧
          (setup nullCreateEnv (initialState Nat)).state.initError
            = some "Failed to initialize Web3.Storage client.")) :=
  ⟨rfl, rfl, rfl, rfl, by decide⟩

/-- The outcomes of `setup` for error objects.  After `setup`, run from a
state without a client,
`isInitializing` is false and the two banners are never shown together.
When the value thrown by the first attempt, if any, is not
`null`/`undefined`, the outcome is one of exactly three: (1) `create` and
`login` both succeeded, the client is set and `initError` is null; (2) the
first attempt failed and the fallback `create` succeeded, the client is set
and `initError` is the login-may-be-required text; (3) the fallback
`create` failed too, the client is null and `initError` is the
failed-to-initialize text; and the "Initialization Failed" banner is shown
exactly in outcome (3). -/
theorem setup_outcomes {V : Type} (env : Env V) (s : AppState V) (hs : s.client = none) :
    (setup env s).state.isInitializing = false ∧
    ¬ (showsInitFailed (setup env s).state = true ∧
        showsClientReady (setup env s).state = true) ∧
    (firstAttempt env ≠ .error .nullish →
      ((∃ c, firstAttempt env = .ok c ∧
          (setup env s).state.client = some c ∧ (setup env s).state.initError = none) ∨
       (∃ e c2, firstAttempt env = .error e ∧ env.create 1 = .ok c2 ∧
          (setup env s).state.client = some c2 ∧
          (setup env s).state.initError
            = some "Client ready but login may be required for uploads") ∨
       (∃ e e2, firstAttempt env = .error e ∧ env.create 1 = .error e2 ∧
          (setup env s).state.client = none ∧
          (setup env s).state.initError
            = some "Failed to initialize Web3.Storage client.")) ∧
      (showsInitFailed (setup env s).state = true ↔
        ∃ e e2, firstAttempt env = .error e ∧ env.create 1 = .error e2)) := by
  obtain ⟨h1, h2, h3, h4⟩ := setup_of_firstAttempt env s
  have hexcl : ∀ st : AppState V,
      ¬ (showsInitFailed st = true ∧ showsClientReady st = true) := by
    intro st
    unfold showsInitFailed showsClientReady
    cases truthy st.initError <;> simp
  refine ⟨?_, hexcl _, ?_⟩
  · cases hfa : firstAttempt env with
    | ok c => rw [h1 c hfa]
    | error e =>
      cases e with
      | nullish => rw [h2 hfa]
      | value m =>
        cases hc1 : env.create 1 with
        | ok c2 => rw [h3 m c2 hfa hc1]
        | error e2 => rw [h4 m e2 hfa hc1]
  · intro hnn
    cases hfa : firstAttempt env with
    | ok c =>
      rw [h1 c hfa]
      refine ⟨Or.inl ⟨c, rfl, rfl, rfl⟩, ?_⟩
      simp [showsInitFailed, truthy]
    | error e =>
      cases e with
      | nullish => exact absurd hfa hnn
      | value m =>
        cases hc1 : env.create 1 with
        | ok c2 =>
          rw [h3 m c2 hfa hc1]
          refine ⟨Or.inr (Or.inl ⟨_, c2, rfl, rfl, rfl, rfl⟩), ?_⟩
          simp [showsInitFailed, truthy]
        | error e2 =>
          rw [h4 m e2 hfa hc1]
          refine ⟨Or.inr (Or.inr ⟨_, e2, rfl, rfl, hs, rfl⟩), ?_⟩
          simp only [showsInitFailed, truthy, hs]
          constructor
          · intro _
            exact ⟨_, e2, rfl, rfl⟩
          · intro _
            decide

/-- The outcomes of `setup` at `loginFailEnv`: `login` throws an error object, the
fallback `create` succeeds, and the outcome is (2). -/
theorem setup_outcomes_witness :
    (initialState Nat).client = none ∧
    firstAttempt loginFailEnv = .error (.value (some "login failed")) ∧
    (setup loginFailEnv (initialState Nat)).state.isInitializing = false ∧
    (setup loginFailEnv (initialState Nat)).state.client = some { handle := 0 } ∧
    (setup loginFailEnv (initialState Nat)).state.initError
      = some "Client ready but login may be required for uploads" ∧
    (showsInitFailed (setup loginFailEnv (initialState Nat)).state = true ↔
      ∃ e e2, firstAttempt loginFailEnv = .error e ∧ loginFailEnv.create 1 = .error e2) :=
  have h := setup_outcomes loginFailEnv (initialState Nat) rfl
  ⟨rfl, rfl, h.1, rfl, rfl, (h.2.2 (fun hfa => by cases hfa)).2⟩

/-! ## The loading flag -/

/-- In a run of the upload handler that passes the guards, `loading` is
left true exactly when the `catch` block itself threw, so that the
`setLoading(false)` after the `try` statement was not reached. -/
theorem handleFileUpload_loading_eq_rejected {V : Type} (env : Env V) (s : AppState V)
    (f : File) (client : Client) (a : Address) (c : Contract V)
    (hclient : s.client = some client) (ha : env.address = some a)
    (hc : getContractInstance env = some c) :
    (handleFileUpload env (some f) s).state.loading
      = (handleFileUpload env (some f) s).rejected := by
  unfold handleFileUpload
  simp only [hclient, ha, hc]
  cases env.uploadFile client f with
  | error e => rcases e with _ | _ | _ <;> rfl
  | ok cid =>
    simp only []
    cases c.uploadFile (uploadArgs cid f) with
    | error e => rcases e with _ | _ | _ <;> rfl
    | ok tx => rfl

/-- C11 fails on the code.  The guards pass (file, storage client, address
and contract are present) and the storage upload rejects with a value that
has no `message`; the `catch` block throws on `err.message.includes`, the
`setLoading(false)` after the `try` statement is not reached, and the
handler ends with `loading` true and the upload button disabled.  The two
sibling routines reset their flags in a `finally` block and do so even when
their `catch` block throws. -/
theorem handleFileUpload_bare_throw_keeps_loading :
    readyState.client = some { handle := 0 } ∧
    bareThrowEnv.address = some { hex := "0x01" } ∧
    (getContractInstance bareThrowEnv).isSome = true ∧
    bareThrowEnv.uploadFile { handle := 0 } sampleFile = .error (.value none) ∧
    (handleFileUpload bareThrowEnv (some sampleFile) readyState).rejected = true ∧
    (handleFileUpload bareThrowEnv (some sampleFile) readyState).state.loading = true ∧
    uploadButtonDisabled (handleFileUpload bareThrowEnv (some sampleFile) readyState).state
      = true ∧
    (getFilesUploaded nullCountEnv 1 readyState).map (fun out => (out.rejected,
      out.state.isGettingFiles)) = some (true, false) ∧
    ((setup nullCreateEnv (initialState Nat)).rejected,
      (setup nullCreateEnv (initialState Nat)).state.isInitializing) = (true, false) :=
  ⟨rfl, rfl, rfl, rfl, rfl, rfl, rfl, rfl, rfl⟩

end BlockBin
